import Mathlib

/-!
Verification of the Bridge-DB migration core against its specification.

The development shallowly embeds the two components the claims are about:

* `SchemaInspector.map_data_type` and `SchemaInspector.generate_create_table_sql`
  from `src/db/inspector.py` (pure string functions, embedded directly);
* the migration orchestration of `src/db/migrator.py`
  (`_migrate_tables_sync`, `_migrate_table_single`, the two chunked-copy
  loops, `migrate_tables` and `cancel_migration`), embedded as pure functions
  over explicit per-table outcome records and an explicit cancel-flag poll
  sequence; the worker thread polls the flag in program order, so the values
  it observes form a sequence indexed by poll number.

Database engines are identified by the same strings the source uses:
"mysql", "postgresql", "oracle", "sqlserver".
-/

namespace BridgeDB

/-! ## Python string primitives

The source manipulates strings with the Python methods lower, split, strip
and the in operator.  They are embedded here as structurally recursive
functions on the character list of a string, so that every definition is
executable by kernel reduction.  The inputs of interest are ASCII, so
lowercasing is modelled on the ASCII range. -/

/-- Model of Python str.lower on one character (ASCII range). -/
def lowerChar (c : Char) : Char :=
  if 65 ≤ c.toNat ∧ c.toNat ≤ 90 then Char.ofNat (c.toNat + 32) else c

/-- Model of Python str.lower. -/
def pyLower (s : String) : String := String.mk (s.data.map lowerChar)

/-- Model of Python str.split with a one-character separator, on the
character list: returns the (possibly empty) segments between occurrences
of the separator, so that the empty string splits to one empty segment. -/
def splitOnChar (sep : Char) : List Char → List (List Char)
  | [] => [[]]
  | c :: cs =>
    let r := splitOnChar sep cs
    if c = sep then [] :: r
    else (c :: r.headD []) :: r.tail

/-- Model of Python str.split with a one-character separator. -/
def pySplit (sep : Char) (s : String) : List String :=
  (splitOnChar sep s.data).map String.mk

/-- Model of Python str.strip on the character list: whitespace is removed
from both ends. -/
def stripList (l : List Char) : List Char :=
  ((l.dropWhile Char.isWhitespace).reverse.dropWhile Char.isWhitespace).reverse

/-- Model of Python str.strip. -/
def pyStrip (s : String) : String := String.mk (stripList s.data)

/-- Model of the Python expression sep in s for a one-character sep. -/
def pyContains (s : String) (c : Char) : Bool := s.data.contains c

/-! ## Inspector: cross-engine type mapping (src/db/inspector.py, map_data_type) -/

/-- Embedding of the `type_mappings` dictionary literal of
`SchemaInspector.map_data_type` (src/db/inspector.py lines 82-219),
keyed by the (source_db_type, target_db_type) pair, verbatim. -/
def type_mappings : List ((String × String) × List (String × String)) :=
  [ (("mysql", "postgresql"),
      [("int", "integer"), ("bigint", "bigint"), ("varchar", "varchar"),
       ("text", "text"), ("datetime", "timestamp"), ("timestamp", "timestamp"),
       ("float", "float"), ("double", "double precision"), ("decimal", "decimal"),
       ("tinyint(1)", "boolean")]),
    (("mysql", "oracle"),
      [("int", "NUMBER(10)"), ("bigint", "NUMBER(19)"), ("varchar", "VARCHAR2"),
       ("text", "CLOB"), ("datetime", "TIMESTAMP"), ("timestamp", "TIMESTAMP"),
       ("float", "FLOAT"), ("double", "FLOAT"), ("decimal", "NUMBER"),
       ("tinyint(1)", "NUMBER(1)")]),
    (("mysql", "sqlserver"),
      [("int", "INT"), ("bigint", "BIGINT"), ("varchar", "VARCHAR"),
       ("text", "TEXT"), ("datetime", "DATETIME"), ("timestamp", "DATETIME"),
       ("float", "FLOAT"), ("double", "FLOAT"), ("decimal", "DECIMAL"),
       ("tinyint(1)", "BIT")]),
    (("postgresql", "mysql"),
      [("integer", "INT"), ("bigint", "BIGINT"), ("varchar", "VARCHAR"),
       ("text", "TEXT"), ("timestamp", "DATETIME"), ("float", "FLOAT"),
       ("double precision", "DOUBLE"), ("numeric", "DECIMAL"),
       ("boolean", "TINYINT(1)")]),
    (("postgresql", "oracle"),
      [("integer", "NUMBER(10)"), ("bigint", "NUMBER(19)"), ("varchar", "VARCHAR2"),
       ("text", "CLOB"), ("timestamp", "TIMESTAMP"), ("float", "FLOAT"),
       ("double precision", "FLOAT"), ("numeric", "NUMBER"),
       ("boolean", "NUMBER(1)")]),
    (("postgresql", "sqlserver"),
      [("integer", "INT"), ("bigint", "BIGINT"), ("varchar", "VARCHAR"),
       ("text", "TEXT"), ("timestamp", "DATETIME"), ("float", "FLOAT"),
       ("double precision", "FLOAT"), ("numeric", "DECIMAL"),
       ("boolean", "BIT")]),
    (("oracle", "mysql"),
      [("number(10)", "INT"), ("number(19)", "BIGINT"), ("varchar2", "VARCHAR"),
       ("clob", "TEXT"), ("timestamp", "DATETIME"), ("float", "FLOAT"),
       ("number", "DECIMAL"), ("number(1)", "TINYINT(1)")]),
    (("oracle", "postgresql"),
      [("number(10)", "INTEGER"), ("number(19)", "BIGINT"), ("varchar2", "VARCHAR"),
       ("clob", "TEXT"), ("timestamp", "TIMESTAMP"), ("float", "FLOAT"),
       ("number", "NUMERIC"), ("number(1)", "BOOLEAN")]),
    (("oracle", "sqlserver"),
      [("number(10)", "INT"), ("number(19)", "BIGINT"), ("varchar2", "VARCHAR"),
       ("clob", "TEXT"), ("timestamp", "DATETIME"), ("float", "FLOAT"),
       ("number", "DECIMAL"), ("number(1)", "BIT")]),
    (("sqlserver", "mysql"),
      [("int", "INT"), ("bigint", "BIGINT"), ("varchar", "VARCHAR"),
       ("text", "TEXT"), ("datetime", "DATETIME"), ("float", "FLOAT"),
       ("decimal", "DECIMAL"), ("bit", "TINYINT(1)")]),
    (("sqlserver", "postgresql"),
      [("int", "INTEGER"), ("bigint", "BIGINT"), ("varchar", "VARCHAR"),
       ("text", "TEXT"), ("datetime", "TIMESTAMP"), ("float", "FLOAT"),
       ("decimal", "NUMERIC"), ("bit", "BOOLEAN")]),
    (("sqlserver", "oracle"),
      [("int", "NUMBER(10)"), ("bigint", "NUMBER(19)"), ("varchar", "VARCHAR2"),
       ("text", "CLOB"), ("datetime", "TIMESTAMP"), ("float", "FLOAT"),
       ("decimal", "NUMBER"), ("bit", "NUMBER(1)")]) ]

/-- Embedding of `SchemaInspector.map_data_type` (src/db/inspector.py lines 75-245).
Mirrors the source control flow statement by statement:
lowercase the input first; if the engines coincide return the (lowercased)
input; otherwise strip a parenthesized suffix to get the base type, look the
base up in the pair's mapping and return the hit; a second lookup of the same
base guards the precision re-attachment branch; fall back to the input. -/
def map_data_type (source_type0 source_db_type target_db_type : String) : String :=
  let source_type := pyLower source_type0
  if source_db_type = target_db_type then
    source_type
  else
    let base_type := pyLower (pyStrip ((pySplit '(' source_type).headD ""))
    let mapping := (type_mappings.lookup (source_db_type, target_db_type)).getD []
    match mapping.lookup base_type with
    | some mapped_type => mapped_type
    | none =>
      if pyContains source_type '(' then
        match mapping.lookup base_type with
        | some base_mapped =>
          let precision_part :=
            (pySplit ')' ((pySplit '(' source_type).getD 1 "")).headD ""
          base_mapped ++ "(" ++ precision_part ++ ")"
        | none => source_type
      else source_type

end BridgeDB

/-! Claims C2, C4, C5: properties of the type mapper. -/

namespace BridgeDB

/-- C2: the mapping table does contain the literal full key tinyint(1) for the
pair (mysql, postgresql), with value boolean, yet `map_data_type` applied to
the input tinyint(1) returns the input unchanged: the lookup works only on the
base type obtained by stripping the parenthesized suffix, so the full key is
never consulted, contradicting the claim that the literal key is matched
before precision stripping. -/
theorem c2_tinyint1_full_key_is_dead :
    ((type_mappings.lookup ("mysql", "postgresql")).getD []).lookup "tinyint(1)"
      = some "boolean"
    ∧ map_data_type "tinyint(1)" "mysql" "postgresql" = "tinyint(1)"
    ∧ map_data_type "TINYINT(1)" "mysql" "postgresql" = "tinyint(1)" := by
  refine ⟨by decide, by decide, by decide⟩

/-- C4: for an input with a precision suffix whose base is present in the
mapping table, `map_data_type` returns the bare target base type, without
re-attaching the suffix: the first base-type lookup returns immediately, so
the re-attachment branch (which repeats the identical lookup) is unreachable.
Here varchar is mapped for (mysql, postgresql), yet varchar(255) maps to
varchar rather than the claimed varchar(255). -/
theorem c4_precision_suffix_is_dropped :
    ((type_mappings.lookup ("mysql", "postgresql")).getD []).lookup "varchar"
      = some "varchar"
    ∧ map_data_type "varchar(255)" "mysql" "postgresql" = "varchar"
    ∧ map_data_type "varchar(255)" "mysql" "postgresql" ≠ "varchar(255)" := by
  refine ⟨by decide, by decide, by decide⟩

/-- C5 counterexample: with equal source and target engines, `map_data_type`
is not the identity on inputs containing uppercase characters: the input is
lowercased before the equal-engine test, so INT comes back as int. -/
theorem c5_same_engine_not_identity :
    map_data_type "INT" "mysql" "mysql" ≠ "INT" := by
  decide

/-- C5 amended: when the source and target engines are equal, `map_data_type`
returns the lowercased input, for every input string and every engine string;
it is therefore the identity exactly on inputs that are already lowercase. -/
theorem c5_same_engine_returns_lowercase (s eng : String) :
    map_data_type s eng eng = pyLower s := by
  simp [map_data_type]

end BridgeDB

/-! ## Migrator: job execution (src/db/migrator.py)

The worker thread of `_migrate_tables_sync` runs sequentially, so the values
it reads from its cancel flag form a sequence indexed by the poll number:
`flag : Nat → Bool` gives the value observed by the n-th poll of
`self.cancel_flags.get(task_id, False)`.  A single `cancel_migration` call
corresponds to a flag of the shape `fun n => decide (c ≤ n)`.

Per-table database interactions are modelled by their outcomes: an
`Except String Unit` field is `.ok ()` when the corresponding call returns
and `.error msg` when it raises an exception whose string form is `msg`.
The source rows of a table are a list of primary-key values in the order the
pk-ordered read returns them. -/

namespace BridgeDB

/-- Outcome model of one table for the migration loop of
`_migrate_tables_sync`:

* `introspect`: outcome of `inspector.inspect_table` (step 1);
* `ddlExec`: outcome of executing the generated CREATE TABLE; the source
  swallows a failure here with a warning, so the field is never consulted;
* `sizeQuery`: outcome of the row-count query run by `_estimate_row_count`;
* `pk`: result of `_get_primary_key` (`none` both when the table has no
  single-column primary key and when the lookup itself failed, which the
  source catches and turns into `None`);
* `rows`: the table rows, as the list of their pk values in read order;
* `chunkRes`: outcome of the chunk reads and inserts of the chunked path:
  `.ok ()` when every `pd.read_sql` and `_insert_chunk` call of the
  pagination loop returns, `.error msg` when one of them raises, an
  exception `_migrate_table_chunked` catches, logs and re-raises to the
  per-table handler;
* `truncateRes`: outcome of the TRUNCATE TABLE statement of the single-shot
  path for mysql and sqlserver targets;
* `readRes`: outcome of the single-shot `pd.read_sql`;
* `writeRes`: outcome of the single-shot bulk insert. -/
structure TableSpec where
  name : String
  introspect : Except String Unit
  ddlExec : Except String Unit
  sizeQuery : Except String Nat
  pk : Option String
  rows : List Nat
  chunkRes : Except String Unit
  truncateRes : Except String Unit
  readRes : Except String Unit
  writeRes : Except String Unit

/-- Terminal progress snapshot, the fields of the dictionaries passed to
`_update_progress` that the claims are about (message and elapsed_time, which
depend on wall-clock time, are omitted). -/
structure Snapshot where
  status : String
  tables_completed : Nat
  tables_failed : List (String × String)
  total_tables : Nat
deriving DecidableEq, Repr

/-- Embedding of `_estimate_row_count` (src/db/migrator.py lines 217-239):
the count query outcome on success, and 0 when the query raised, since the
source catches the exception and returns 0. -/
def estimateRowCount (t : TableSpec) : Nat :=
  match t.sizeQuery with
  | .ok n => n
  | .error _ => 0

/-- The chunk read of keyset pagination: the first read has no lower bound,
later reads restrict to pk values strictly above the last one seen,
mirroring the WHERE pk > last_id of the source queries. -/
def keysetFilter (last_id : Option Nat) (rows : List Nat) : List Nat :=
  match last_id with
  | none => rows
  | some l => rows.filter (fun x => decide (l < x))

/-- Embedding of the while loop of `_migrate_with_keyset_pagination`
(src/db/migrator.py lines 456-553).  The loop runs while
`rows_processed < row_count`; each iteration polls the cancel flag and
returns silently when it is set, otherwise reads a chunk of at most
`chunk_size` rows beyond `last_id`, breaks on an empty chunk, and otherwise
inserts the chunk, advances `last_id` to the last row of the chunk and adds
the chunk length to `rows_processed`.  The `fuel` argument bounds the number
of iterations so the definition is total; `none` means the fuel ran out.
The result carries the next unused poll index and the final
`rows_processed`, which equals the number of rows inserted. -/
def keysetLoop (flag : Nat → Bool) (rows : List Nat) (row_count chunk_size : Nat) :
    Nat → Nat → Option Nat → Nat → Option (Nat × Nat)
  | 0, _, _, _ => none
  | fuel + 1, pollIdx, last_id, rows_processed =>
    if rows_processed < row_count then
      if flag pollIdx then some (pollIdx + 1, rows_processed)
      else
        let chunk := (keysetFilter last_id rows).take chunk_size
        if chunk.isEmpty then some (pollIdx + 1, rows_processed)
        else
          keysetLoop flag rows row_count chunk_size fuel (pollIdx + 1)
            (some (chunk.getLast?.getD 0)) (rows_processed + chunk.length)
    else some (pollIdx, rows_processed)

/-- Embedding of the while loop of `_migrate_with_offset_pagination`
(src/db/migrator.py lines 555-625).  Identical shape to the keyset loop,
except that the chunk is the `chunk_size` rows at the current `offset` and
the offset advances by `chunk_size` each iteration. -/
def offsetLoop (flag : Nat → Bool) (rows : List Nat) (row_count chunk_size : Nat) :
    Nat → Nat → Nat → Nat → Option (Nat × Nat)
  | 0, _, _, _ => none
  | fuel + 1, pollIdx, offset, rows_processed =>
    if rows_processed < row_count then
      if flag pollIdx then some (pollIdx + 1, rows_processed)
      else
        let chunk := (rows.drop offset).take chunk_size
        if chunk.isEmpty then some (pollIdx + 1, rows_processed)
        else
          offsetLoop flag rows row_count chunk_size fuel (pollIdx + 1)
            (offset + chunk_size) (rows_processed + chunk.length)
    else some (pollIdx, rows_processed)

/-- Embedding of `_migrate_table_single` (src/db/migrator.py lines 241-363):
the read runs first; then the write path of the target engine.  For mysql
and sqlserver targets a TRUNCATE TABLE precedes the insert, with no
exception handler around it, so its failure propagates exactly like a read
or write failure.  A target outside the four engines performs no write. -/
def migrateTableSingle (target_db_type : String) (t : TableSpec) : Except String Unit :=
  t.readRes.bind (fun _ =>
    if target_db_type = "postgresql" then t.writeRes
    else if target_db_type = "mysql" then t.truncateRes.bind (fun _ => t.writeRes)
    else if target_db_type = "oracle" then t.writeRes
    else if target_db_type = "sqlserver" then t.truncateRes.bind (fun _ => t.writeRes)
    else .ok ())

/-- Embedding of `_migrate_table_chunked` (src/db/migrator.py lines 365-403)
with the source's fixed chunk_size of 100000: keyset pagination when a
single-column primary key was found, offset pagination otherwise.  A chunk
read or insert that raises aborts the loop; `_migrate_table_chunked`
catches, logs and re-raises it (lines 401-403), so the error reaches the
per-table handler — `chunkRes` carries that outcome.  On a failing run the
polls consumed before the raise are not modelled (the poll index is left at
the table-entry value); no settled claim reads the flag after a failed
chunked copy.  On a successful run the loop runs in full: the fuel
`row_count + 2` is sufficient (theorem `c10_chunked_loops_terminate`), so
the `getD` default is never taken, and the caller learns the next poll
index. -/
def migrateTableChunked (flag : Nat → Bool) (pollIdx : Nat) (t : TableSpec)
    (row_count : Nat) : Nat × Except String Unit :=
  match t.chunkRes with
  | .error e => (pollIdx, .error e)
  | .ok _ =>
    match t.pk with
    | some _ =>
      (((keysetLoop flag t.rows row_count 100000 (row_count + 2) pollIdx none 0).getD
        (pollIdx, 0)).1, .ok ())
    | none =>
      (((offsetLoop flag t.rows row_count 100000 (row_count + 2) pollIdx 0 0).getD
        (pollIdx, 0)).1, .ok ())

/-- The body of the per-table try block of `_migrate_tables_sync`
(src/db/migrator.py lines 126-193): introspection failure propagates to the
per-table handler; the CREATE TABLE is generated (pure) and executed with
failures downgraded to warnings; the row count estimate selects the chunked
path above 1000000 rows and the single-shot path otherwise.  Returns the
next poll index and the outcome the handler sees. -/
def migrateOneTable (flag : Nat → Bool) (pollIdx : Nat) (target_db_type : String)
    (t : TableSpec) : Nat × Except String Unit :=
  match t.introspect with
  | .error e => (pollIdx, .error e)
  | .ok _ =>
    let row_count := estimateRowCount t
    if 1000000 < row_count then
      migrateTableChunked flag pollIdx t row_count
    else
      (pollIdx, migrateTableSingle target_db_type t)

/-- The table loop of `_migrate_tables_sync` (src/db/migrator.py lines
114-204).  Each iteration first polls the cancel flag and, when it is set,
reports the cancelled snapshot and returns; otherwise the table is migrated,
a success increments `tables_migrated`, and a failure appends
`(table, error)` to `failed_tables` and moves on.  When the list is
exhausted the completed snapshot is reported. -/
def migrateLoop (flag : Nat → Bool) (target_db_type : String) (total : Nat) :
    List TableSpec → Nat → Nat → List (String × String) → Snapshot
  | [], _, migrated, failed =>
    { status := "completed", tables_completed := migrated,
      tables_failed := failed, total_tables := total }
  | t :: rest, pollIdx, migrated, failed =>
    if flag pollIdx then
      { status := "cancelled", tables_completed := migrated,
        tables_failed := failed, total_tables := total }
    else
      match migrateOneTable flag (pollIdx + 1) target_db_type t with
      | (p2, .ok _) => migrateLoop flag target_db_type total rest p2 (migrated + 1) failed
      | (p2, .error e) =>
        migrateLoop flag target_db_type total rest p2 migrated (failed ++ [(t.name, e)])

/-- Embedding of `_migrate_tables_sync` for a run in which the surrounding
orchestration (engine construction) succeeds: the table loop starting from
zero migrated tables, no failures, and poll index 0. -/
def migrateTablesSync (flag : Nat → Bool) (target_db_type : String)
    (tables : List TableSpec) : Snapshot :=
  migrateLoop flag target_db_type tables.length tables 0 0 []

/-- Mirror of the outcome the per-table exception handler of
`_migrate_tables_sync` observes for one table: introspection failures
propagate; a row-count query failure is swallowed (count treated as 0); on
the chunked path a chunk read or insert failure propagates through the
re-raise of `_migrate_table_chunked`; on the single-shot path a read,
truncate (mysql and sqlserver targets) or write failure propagates. -/
def tableFails (target_db_type : String) (t : TableSpec) : Option String :=
  match t.introspect with
  | .error e => some e
  | .ok _ =>
    if 1000000 < estimateRowCount t then
      match t.chunkRes with
      | .ok _ => none
      | .error e => some e
    else
      match migrateTableSingle target_db_type t with
      | .ok _ => none
      | .error e => some e

theorem migrateOneTable_snd (flag : Nat → Bool) (p : Nat) (tgt : String) (t : TableSpec) :
    (migrateOneTable flag p tgt t).2
      = match tableFails tgt t with
        | none => Except.ok ()
        | some e => Except.error e := by
  unfold migrateOneTable migrateTableChunked tableFails
  cases t.introspect with
  | error e => rfl
  | ok _ =>
    by_cases h : 1000000 < estimateRowCount t
    · simp only [h, if_true]
      cases t.chunkRes with
      | error e => rfl
      | ok _ => cases t.pk <;> rfl
    · simp only [h, if_false]
      cases migrateTableSingle tgt t <;> rfl

theorem migrateLoop_no_cancel (tgt : String) (total : Nat) :
    ∀ (ts : List TableSpec) (pollIdx migrated : Nat) (failed : List (String × String)),
    migrateLoop (fun _ => false) tgt total ts pollIdx migrated failed
      = { status := "completed",
          tables_completed :=
            migrated + (ts.filter (fun t => (tableFails tgt t).isNone)).length,
          tables_failed :=
            failed ++ ts.filterMap (fun t => (tableFails tgt t).map (fun e => (t.name, e))),
          total_tables := total } := by
  intro ts
  induction ts with
  | nil => intro p m f; simp [migrateLoop]
  | cons t rest ih =>
    intro p m f
    have hsnd := migrateOneTable_snd (fun _ => false) (p + 1) tgt t
    rcases hmo : migrateOneTable (fun _ => false) (p + 1) tgt t with ⟨p2, res⟩
    rw [hmo] at hsnd
    simp only [migrateLoop, Bool.false_eq_true, if_false, hmo]
    cases hfail : tableFails tgt t with
    | none =>
      rw [hfail] at hsnd
      simp only at hsnd
      subst hsnd
      dsimp only
      rw [ih]
      simp [hfail, Nat.add_assoc, Nat.add_comm 1]
    | some e =>
      rw [hfail] at hsnd
      simp only at hsnd
      subst hsnd
      dsimp only
      rw [ih]
      simp [hfail, List.filterMap_cons, List.append_assoc]

end BridgeDB

/-! Claims C1, C3, C7, C10: behavior of the migration loop. -/

namespace BridgeDB

/-- Concrete input for C1: a single chunked table (row-count estimate
1000001, above the 1000000 threshold; single-column primary key, so keyset
pagination) whose cancel flag is observed set from poll index 2 onwards,
that is, after the first chunk of the copy has been written. -/
def c1Table : TableSpec :=
  { name := "t1", introspect := .ok (), ddlExec := .ok (), sizeQuery := .ok 1000001,
    pk := some "id", rows := [1, 2], chunkRes := .ok (), truncateRes := .ok (),
    readRes := .ok (), writeRes := .ok () }

/-- C1: the cancel flag set mid-copy of the last table does not prevent a
completed status.  The chunk loop sees the flag at its second poll and
returns silently; the table loop then counts the partially copied table as
migrated, and with no further table to head the loop there is no remaining
poll, so the job reports status completed with tables_completed 1 instead of
cancelled — refuting the claim that no job whose cancel flag was set
mid-copy terminates with status completed. -/
theorem c1_cancel_mid_copy_can_complete :
    migrateTablesSync (fun n => decide (2 ≤ n)) "postgresql" [c1Table]
      = { status := "completed", tables_completed := 1, tables_failed := [],
          total_tables := 1 } := by
  decide

/-- Concrete input for the C3 counterexample: the row-count query of the
table raises and every other step succeeds. -/
def c3Table : TableSpec :=
  { name := "t1", introspect := .ok (), ddlExec := .ok (),
    sizeQuery := .error "count query failed", pk := none, rows := [],
    chunkRes := .ok (), truncateRes := .ok (), readRes := .ok (),
    writeRes := .ok () }

/-- C3 counterexample: a failure of the size step is not recorded in
tables_failed.  The source catches the row-count exception inside
`_estimate_row_count` and returns 0, so the table proceeds single-shot and
completes: the final snapshot counts it as migrated and tables_failed is
empty, refuting the claim that a size failure yields a tables_failed
entry. -/
theorem c3_size_failure_not_recorded :
    migrateTablesSync (fun _ => false) "postgresql" [c3Table]
      = { status := "completed", tables_completed := 1, tables_failed := [],
          total_tables := 1 } := by
  decide

/-- C3 amended: with no cancellation, the job always terminates with status
completed (never error); the tables whose copy raised — introspection
failures, chunk read or insert failures on the chunked path, and read,
truncate or write failures on the single-shot path — are recorded in order
as (table, error message) entries of tables_failed, the loop proceeds to
the next table, and every other table counts into tables_completed.  Size
failures alone are swallowed, with the count treated as 0. -/
theorem c3_per_table_failures_recorded (target_db_type : String)
    (tables : List TableSpec) :
    migrateTablesSync (fun _ => false) target_db_type tables
      = { status := "completed",
          tables_completed :=
            (tables.filter (fun t => (tableFails target_db_type t).isNone)).length,
          tables_failed :=
            tables.filterMap
              (fun t => (tableFails target_db_type t).map (fun e => (t.name, e))),
          total_tables := tables.length } := by
  have h := migrateLoop_no_cancel target_db_type tables.length tables 0 0 []
  simpa [migrateTablesSync] using h

/-- Concrete input for the C7 counterexample: a small table (single-shot
path) whose TRUNCATE raises while read and write would succeed. -/
def c7Table : TableSpec :=
  { name := "t1", introspect := .ok (), ddlExec := .ok (), sizeQuery := .ok 5,
    pk := none, rows := [], chunkRes := .ok (),
    truncateRes := .error "truncate failed",
    readRes := .ok (), writeRes := .ok () }

/-- C7 counterexample: in single-shot mode with a MySQL target, a TRUNCATE
failure alone puts the table into tables_failed.  The source wraps no
handler around the TRUNCATE, so the exception propagates to the per-table
handler: the table is recorded as failed and does not count as completed,
refuting the claim that the copy proceeds and the table is not recorded in
tables_failed on account of the truncation failure alone. -/
theorem c7_truncate_failure_counterexample :
    migrateTablesSync (fun _ => false) "mysql" [c7Table]
      = { status := "completed", tables_completed := 0,
          tables_failed := [("t1", "truncate failed")], total_tables := 1 } := by
  decide

/-- C7 amended: in single-shot mode with a MySQL or SQL Server target, a
TRUNCATE failure aborts the table copy: whatever the write outcome would
have been, the job records the table with the truncation error in
tables_failed and does not count it as completed. -/
theorem c7_truncate_failure_fails_table (target_db_type : String) (t : TableSpec)
    (e : String) (htgt : target_db_type = "mysql" ∨ target_db_type = "sqlserver")
    (hin : t.introspect = .ok ()) (hread : t.readRes = .ok ())
    (htr : t.truncateRes = .error e) (hsize : estimateRowCount t ≤ 1000000) :
    migrateTablesSync (fun _ => false) target_db_type [t]
      = { status := "completed", tables_completed := 0,
          tables_failed := [(t.name, e)], total_tables := 1 } := by
  have hnot : ¬ 1000000 < estimateRowCount t := by omega
  rcases htgt with h | h <;> subst h <;>
    simp [migrateTablesSync, migrateLoop, migrateOneTable, hin, hnot,
      migrateTableSingle, hread, htr, Except.bind]

/-- Witness for C7: the amended theorem applied to a concrete SQL Server
run with a failing TRUNCATE. -/
theorem c7_truncate_failure_fails_table_witness :
    migrateTablesSync (fun _ => false) "sqlserver"
      [{ name := "t2", introspect := .ok (), ddlExec := .ok (), sizeQuery := .ok 7,
         pk := none, rows := [], chunkRes := .ok (), truncateRes := .error "boom",
         readRes := .ok (), writeRes := .ok () }]
      = { status := "completed", tables_completed := 0,
          tables_failed := [("t2", "boom")], total_tables := 1 } :=
  c7_truncate_failure_fails_table "sqlserver" _ "boom" (Or.inr rfl) rfl rfl rfl
    (by decide)

theorem keysetLoop_total (flag : Nat → Bool) (rows : List Nat)
    (row_count chunk_size : Nat) :
    ∀ fuel pollIdx last_id rows_processed, row_count - rows_processed < fuel →
    ∃ p r, keysetLoop flag rows row_count chunk_size fuel pollIdx last_id rows_processed
        = some (p, r)
      ∧ (r ≤ rows_processed ∨ r ≤ row_count - 1 + chunk_size) := by
  intro fuel
  induction fuel with
  | zero => intro _ _ _ h; omega
  | succ fuel ih =>
    intro pollIdx last_id rp h
    by_cases hlt : rp < row_count
    · by_cases hf : flag pollIdx
      · exact ⟨pollIdx + 1, rp, by simp [keysetLoop, hlt, hf], Or.inl le_rfl⟩
      · by_cases hempty : ((keysetFilter last_id rows).take chunk_size).isEmpty
        · exact ⟨pollIdx + 1, rp, by simp [keysetLoop, hlt, hf, hempty], Or.inl le_rfl⟩
        · have hne : (keysetFilter last_id rows).take chunk_size ≠ [] := by
            simpa [List.isEmpty_iff] using hempty
          have hlen1 : 1 ≤ ((keysetFilter last_id rows).take chunk_size).length :=
            List.length_pos.mpr hne
          have hlen2 : ((keysetFilter last_id rows).take chunk_size).length ≤ chunk_size :=
            List.length_take_le chunk_size (keysetFilter last_id rows)
          obtain ⟨p, r, heq, hle⟩ := ih (pollIdx + 1)
            (some (((keysetFilter last_id rows).take chunk_size).getLast?.getD 0))
            (rp + ((keysetFilter last_id rows).take chunk_size).length) (by omega)
          refine ⟨p, r, ?_, ?_⟩
          · simpa [keysetLoop, hlt, hf, hempty] using heq
          · right; omega
    · exact ⟨pollIdx, rp, by simp [keysetLoop, hlt], Or.inl le_rfl⟩

theorem offsetLoop_total (flag : Nat → Bool) (rows : List Nat)
    (row_count chunk_size : Nat) :
    ∀ fuel pollIdx offset rows_processed, row_count - rows_processed < fuel →
    ∃ p r, offsetLoop flag rows row_count chunk_size fuel pollIdx offset rows_processed
        = some (p, r)
      ∧ (r ≤ rows_processed ∨ r ≤ row_count - 1 + chunk_size) := by
  intro fuel
  induction fuel with
  | zero => intro _ _ _ h; omega
  | succ fuel ih =>
    intro pollIdx offset rp h
    by_cases hlt : rp < row_count
    · by_cases hf : flag pollIdx
      · exact ⟨pollIdx + 1, rp, by simp [offsetLoop, hlt, hf], Or.inl le_rfl⟩
      · by_cases hempty : ((rows.drop offset).take chunk_size).isEmpty
        · exact ⟨pollIdx + 1, rp, by simp [offsetLoop, hlt, hf, hempty], Or.inl le_rfl⟩
        · have hne : (rows.drop offset).take chunk_size ≠ [] := by
            simpa [List.isEmpty_iff] using hempty
          have hlen1 : 1 ≤ ((rows.drop offset).take chunk_size).length :=
            List.length_pos.mpr hne
          have hlen2 : ((rows.drop offset).take chunk_size).length ≤ chunk_size :=
            List.length_take_le chunk_size (rows.drop offset)
          obtain ⟨p, r, heq, hle⟩ := ih (pollIdx + 1) (offset + chunk_size)
            (rp + ((rows.drop offset).take chunk_size).length) (by omega)
          refine ⟨p, r, ?_, ?_⟩
          · simpa [offsetLoop, hlt, hf, hempty] using heq
          · right; omega
    · exact ⟨pollIdx, rp, by simp [offsetLoop, hlt], Or.inl le_rfl⟩

/-- C10: both chunked-copy loops terminate within `row_count + 2` iterations
of their while loops — every iteration either exits (cancel, empty chunk, or
the `rows_processed < row_count` guard failing) or inserts a non-empty chunk
and strictly increases `rows_processed` — and the number of rows inserted
into the target, which the final `rows_processed` counts, is at most
`row_count + chunk_size - 1`. -/
theorem c10_chunked_loops_terminate (flag : Nat → Bool) (rows : List Nat)
    (row_count chunk_size pollIdx : Nat) (hcs : 0 < chunk_size) :
    (∃ p r, keysetLoop flag rows row_count chunk_size (row_count + 2) pollIdx none 0
        = some (p, r) ∧ r ≤ row_count + chunk_size - 1)
    ∧ (∃ p r, offsetLoop flag rows row_count chunk_size (row_count + 2) pollIdx 0 0
        = some (p, r) ∧ r ≤ row_count + chunk_size - 1) := by
  rcases Nat.eq_zero_or_pos row_count with hz | hpos
  · subst hz
    exact ⟨⟨pollIdx, 0, by simp [keysetLoop], Nat.zero_le _⟩,
           ⟨pollIdx, 0, by simp [offsetLoop], Nat.zero_le _⟩⟩
  · constructor
    · obtain ⟨p, r, heq, hle⟩ :=
        keysetLoop_total flag rows row_count chunk_size (row_count + 2) pollIdx none 0
          (by omega)
      exact ⟨p, r, heq, by rcases hle with hle | hle <;> omega⟩
    · obtain ⟨p, r, heq, hle⟩ :=
        offsetLoop_total flag rows row_count chunk_size (row_count + 2) pollIdx 0 0
          (by omega)
      exact ⟨p, r, heq, by rcases hle with hle | hle <;> omega⟩

/-- Witness for C10: the loop bound theorem applied to a concrete table of
three rows with chunk size two. -/
theorem c10_chunked_loops_terminate_witness :
    (∃ p r, keysetLoop (fun _ => false) [1, 2, 3] 3 2 5 0 none 0
        = some (p, r) ∧ r ≤ 4)
    ∧ (∃ p r, offsetLoop (fun _ => false) [1, 2, 3] 3 2 5 0 0 0
        = some (p, r) ∧ r ≤ 4) :=
  c10_chunked_loops_terminate (fun _ => false) [1, 2, 3] 3 2 0 (by decide)

end BridgeDB

/-! ## Migrator: job registry state (src/db/migrator.py, migrate_tables and
cancel_migration)

The `DatabaseMigrator` object keeps two Python dictionaries keyed by task id:
`progress_callbacks` and `cancel_flags`.  They are modelled as ordered
association lists with Python dict semantics: lookup returns the value of
the first matching key, assignment replaces the value of an existing key in
place and otherwise appends.  Progress callbacks are identified by opaque
numeric tokens.  The connector's engine registry only matters through key
membership, so it is a list of known connection ids. -/

namespace BridgeDB

/-- Python dict lookup d.get(k) on an association list. -/
def dictGet {α : Type} : List (String × α) → String → Option α
  | [], _ => none
  | p :: rest, k => if p.1 = k then some p.2 else dictGet rest k

/-- Python dict assignment d[k] = v on an association list. -/
def dictSet {α : Type} (d : List (String × α)) (k : String) (v : α) :
    List (String × α) :=
  if (dictGet d k).isSome then
    d.map (fun p => if p.1 = k then (k, v) else p)
  else d ++ [(k, v)]

theorem dictGet_dictSet_self {α : Type} (d : List (String × α)) (k : String) (v : α) :
    dictGet (dictSet d k v) k = some v := by
  induction d with
  | nil => simp [dictSet, dictGet]
  | cons p rest ih =>
    by_cases hk : p.1 = k
    · simp [dictSet, dictGet, hk]
    · have hstep : dictGet (dictSet (p :: rest) k v) k = dictGet (dictSet rest k v) k := by
        by_cases hs : (dictGet rest k).isSome <;>
          simp [dictSet, dictGet, hk, hs]
      rw [hstep, ih]

theorem dictGet_append_single_ne {α : Type} (d : List (String × α)) (k k2 : String)
    (v : α) (hk : ¬ k = k2) : dictGet (d ++ [(k, v)]) k2 = dictGet d k2 := by
  induction d with
  | nil => simp [dictGet, hk]
  | cons p rest ih => by_cases hp : p.1 = k2 <;> simp [dictGet, hp, ih]

theorem dictGet_mapSet_ne {α : Type} (d : List (String × α)) (k k2 : String)
    (v : α) (hk : ¬ k = k2) :
    dictGet (d.map (fun p => if p.1 = k then (k, v) else p)) k2 = dictGet d k2 := by
  induction d with
  | nil => rfl
  | cons p rest ih =>
    by_cases hp : p.1 = k
    · have hp2 : ¬ p.1 = k2 := by rw [hp]; exact hk
      simp [dictGet, hp, hk, hp2, ih]
    · simp only [List.map_cons, if_neg hp]
      by_cases hp2 : p.1 = k2 <;> simp [dictGet, hp2, ih]

theorem dictGet_dictSet_ne {α : Type} (d : List (String × α)) (k k2 : String)
    (v : α) (hk : ¬ k = k2) : dictGet (dictSet d k v) k2 = dictGet d k2 := by
  unfold dictSet
  by_cases hs : (dictGet d k).isSome <;>
    simp [hs, dictGet_mapSet_ne _ _ _ _ hk, dictGet_append_single_ne _ _ _ _ hk]

theorem dictGet_dictSet_isSome {α : Type} (d : List (String × α)) (k k2 : String)
    (v : α) (h : (dictGet d k2).isSome = true) :
    (dictGet (dictSet d k v) k2).isSome = true := by
  by_cases hk : k2 = k
  · subst hk; rw [dictGet_dictSet_self]; rfl
  · rw [dictGet_dictSet_ne _ _ _ _ (fun he => hk he.symm)]; exact h

/-- The mutable per-migrator state: the `progress_callbacks` and
`cancel_flags` dictionaries of `DatabaseMigrator.__init__`. -/
structure MigratorState where
  progress_callbacks : List (String × Nat)
  cancel_flags : List (String × Bool)
deriving DecidableEq, Repr

/-- Embedding of the synchronous prefix of `DatabaseMigrator.migrate_tables`
(src/db/migrator.py lines 23-75): raise if either connection id is unknown;
store the progress callback when one is given; set the cancel flag of the
task id to False; hand the copy to the executor and return a started
result.  No check of an existing job with the same task id is performed. -/
def migrate_tables_call (engines : List String) (s : MigratorState)
    (source_connection_id target_connection_id : String)
    (progress_callback : Option Nat) (task_id : String) :
    Except String (MigratorState × String) :=
  if ¬ (engines.contains source_connection_id) then
    .error ("No source connection with ID: " ++ source_connection_id)
  else if ¬ (engines.contains target_connection_id) then
    .error ("No target connection with ID: " ++ target_connection_id)
  else
    let s1 : MigratorState :=
      match progress_callback with
      | some cb => { s with progress_callbacks := dictSet s.progress_callbacks task_id cb }
      | none => s
    let s2 : MigratorState :=
      { s1 with cancel_flags := dictSet s1.cancel_flags task_id false }
    .ok (s2, "started")

/-- Embedding of `DatabaseMigrator.cancel_migration` (src/db/migrator.py
lines 699-705): when the task id has a cancel-flag entry the flag is set to
True and the call reports status cancelling; otherwise status error (task
id not found).  The test is key membership in `cancel_flags`, which no
operation ever shrinks. -/
def cancel_migration (s : MigratorState) (task_id : String) :
    MigratorState × String :=
  if (dictGet s.cancel_flags task_id).isSome then
    ({ s with cancel_flags := dictSet s.cancel_flags task_id true }, "cancelling")
  else (s, "error")

/-- Operations that touch the migrator registries: a `migrate_tables` call,
a `cancel_migration` call, and the worker of a job running to its terminal
snapshot.  `_migrate_tables_sync` only reads `cancel_flags` (through
`.get`) and calls the stored callbacks; it deletes from neither dictionary,
so a finished job leaves the registries unchanged. -/
inductive MigOp where
  | start (source_id target_id : String) (cb : Option Nat) (task_id : String)
  | cancel (task_id : String)
  | finish (task_id : String)

def stepOp (engines : List String) (s : MigratorState) : MigOp → MigratorState
  | .start src tgt cb id =>
    match migrate_tables_call engines s src tgt cb id with
    | .ok (s2, _) => s2
    | .error _ => s
  | .cancel id => (cancel_migration s id).1
  | .finish _ => s

def runOps (engines : List String) (s : MigratorState) (ops : List MigOp) :
    MigratorState :=
  ops.foldl (stepOp engines) s

theorem migrate_tables_call_ok (engines : List String) (s : MigratorState)
    (src tgt : String) (cb : Option Nat) (task_id : String)
    (h1 : engines.contains src = true) (h2 : engines.contains tgt = true) :
    migrate_tables_call engines s src tgt cb task_id
      = .ok ({ progress_callbacks :=
                 match cb with
                 | some c => dictSet s.progress_callbacks task_id c
                 | none => s.progress_callbacks,
               cancel_flags := dictSet s.cancel_flags task_id false }, "started") := by
  have m1 : src ∈ engines := by simpa using h1
  have m2 : tgt ∈ engines := by simpa using h2
  cases cb <;> simp [migrate_tables_call, m1, m2]

theorem stepOp_preserves_flag (engines : List String) (s : MigratorState)
    (op : MigOp) (id : String) (h : (dictGet s.cancel_flags id).isSome = true) :
    (dictGet (stepOp engines s op).cancel_flags id).isSome = true := by
  cases op with
  | start src tgt cb tid =>
    by_cases h1 : engines.contains src = true
    · by_cases h2 : engines.contains tgt = true
      · rw [stepOp, migrate_tables_call_ok engines s src tgt cb tid h1 h2]
        exact dictGet_dictSet_isSome _ _ _ _ h
      · have m1 : src ∈ engines := by simpa using h1
        have m2 : ¬ tgt ∈ engines := by simpa using h2
        have : migrate_tables_call engines s src tgt cb tid
            = .error ("No target connection with ID: " ++ tgt) := by
          simp [migrate_tables_call, m1, m2]
        rw [stepOp, this]
        exact h
    · have m1 : ¬ src ∈ engines := by simpa using h1
      have : migrate_tables_call engines s src tgt cb tid
          = .error ("No source connection with ID: " ++ src) := by
        simp [migrate_tables_call, m1]
      rw [stepOp, this]
      exact h
  | cancel tid =>
    rw [stepOp]
    unfold cancel_migration
    by_cases hc : (dictGet s.cancel_flags tid).isSome = true
    · simp only [hc, if_true]
      exact dictGet_dictSet_isSome _ _ _ _ h
    · simp only [Bool.not_eq_true] at hc
      simp [hc, h]
  | finish tid => exact h

theorem runOps_preserves_flag (engines : List String) (ops : List MigOp) :
    ∀ (s : MigratorState) (id : String),
    (dictGet s.cancel_flags id).isSome = true →
    (dictGet (runOps engines s ops).cancel_flags id).isSome = true := by
  induction ops with
  | nil => intro s id h; exact h
  | cons op rest ih =>
    intro s id h
    exact ih (stepOp engines s op) id (stepOp_preserves_flag engines s op id h)

end BridgeDB

/-! Claims C8 and C9: start_migration with a duplicate job id, and
cancel after termination. -/

namespace BridgeDB

/-- C8 counterexample: a migrator whose registry holds a live job j (cancel
flag present, here already set, and a registered callback) accepts a second
`migrate_tables` call with the same task id j: the call succeeds with status
started instead of failing with a JobExists error, the live job's cancel
flag is reset to false, and its progress callback is replaced — refuting
both the claimed failure and the claimed preservation of the live job's
state. -/
theorem c8_duplicate_job_id_counterexample :
    migrate_tables_call ["a", "b"]
      { progress_callbacks := [("j", 1)], cancel_flags := [("j", true)] }
      "a" "b" (some 2) "j"
      = .ok ({ progress_callbacks := [("j", 2)], cancel_flags := [("j", false)] },
             "started") := by
  rfl

/-- C8 amended: `migrate_tables` performs no duplicate-job check.  Whenever
both connection ids are known, the call — from any prior state, including
one whose registry already holds a live job under the same task id —
returns started, stores the given callback under the task id and resets the
task's cancel flag to false. -/
theorem c8_duplicate_start_overwrites (engines : List String) (s : MigratorState)
    (src tgt : String) (cb : Nat) (task_id : String)
    (h1 : engines.contains src = true) (h2 : engines.contains tgt = true) :
    migrate_tables_call engines s src tgt (some cb) task_id
      = .ok ({ progress_callbacks := dictSet s.progress_callbacks task_id cb,
               cancel_flags := dictSet s.cancel_flags task_id false }, "started")
    ∧ dictGet (dictSet s.cancel_flags task_id false) task_id = some false
    ∧ dictGet (dictSet s.progress_callbacks task_id cb) task_id = some cb :=
  ⟨migrate_tables_call_ok engines s src tgt (some cb) task_id h1 h2,
   dictGet_dictSet_self _ _ _, dictGet_dictSet_self _ _ _⟩

/-- Witness for C8: the amended theorem applied to a concrete duplicate
start over a state holding a live job under the same id. -/
theorem c8_duplicate_start_overwrites_witness :
    migrate_tables_call ["a"]
        { progress_callbacks := [], cancel_flags := [("j", false)] }
        "a" "a" (some 9) "j"
        = .ok ({ progress_callbacks := dictSet [] "j" 9,
                 cancel_flags := dictSet [("j", false)] "j" false }, "started")
    ∧ dictGet (dictSet [("j", false)] "j" false) "j" = some false
    ∧ dictGet (dictSet ([] : List (String × Nat)) "j" 9) "j" = some 9 :=
  c8_duplicate_start_overwrites ["a"]
    { progress_callbacks := [], cancel_flags := [("j", false)] }
    "a" "a" 9 "j" (by decide) (by decide)

/-- C9: once a `migrate_tables` call with known connection ids has admitted
a job id, every later `cancel_migration` for that id returns status
cancelling rather than the not-found error, whatever other starts, cancels
and job terminations happen in between — in particular after the job
reached its terminal snapshot.  The cancel-flag entry is created at start
and no operation removes it, so cancel distinguishes ever-started ids from
never-started ids only. -/
theorem c9_cancel_after_terminal_still_cancelling (engines : List String)
    (s0 : MigratorState) (pre post : List MigOp) (src tgt : String)
    (cb : Option Nat) (id : String)
    (h1 : engines.contains src = true) (h2 : engines.contains tgt = true) :
    (cancel_migration
        (runOps engines s0 (pre ++ MigOp.start src tgt cb id :: post)) id).2
      = "cancelling" := by
  have hstart : (dictGet (stepOp engines (runOps engines s0 pre)
      (MigOp.start src tgt cb id)).cancel_flags id).isSome = true := by
    rw [stepOp, migrate_tables_call_ok engines _ src tgt cb id h1 h2]
    rw [dictGet_dictSet_self]
    rfl
  have hrun : (dictGet (runOps engines s0
      (pre ++ MigOp.start src tgt cb id :: post)).cancel_flags id).isSome = true := by
    rw [runOps, List.foldl_append, List.foldl_cons]
    exact runOps_preserves_flag engines post _ id hstart
  unfold cancel_migration
  simp [hrun]

/-- Witness for C9: a concrete trace in which job j is started, runs to its
terminal snapshot, and an unrelated id is cancelled; cancelling j afterwards
still reports cancelling. -/
theorem c9_cancel_after_terminal_witness :
    (cancel_migration
        (runOps ["a"] { progress_callbacks := [], cancel_flags := [] }
          ([] ++ MigOp.start "a" "a" none "j"
            :: [MigOp.finish "j", MigOp.cancel "x"])) "j").2
      = "cancelling" :=
  c9_cancel_after_terminal_still_cancelling ["a"]
    { progress_callbacks := [], cancel_flags := [] } []
    [MigOp.finish "j", MigOp.cancel "x"] "a" "a" none "j" (by decide) (by decide)

end BridgeDB

/-! ## Inspector: CREATE TABLE synthesis (src/db/inspector.py,
generate_create_table_sql)

The schema dictionaries produced by `inspect_table` carry the table name,
the ordered column list (name, native type string, nullability, default as
a string) and the ordered primary-key column list; the indices entry is not
read by the renderer and is omitted from the model. -/

namespace BridgeDB

/-- One column of a table schema, as produced by `inspect_table`. -/
structure ColumnInfo where
  name : String
  type : String
  nullable : Bool
  default : String

/-- A table schema, as consumed by `generate_create_table_sql`. -/
structure TableSchema where
  table : String
  columns : List ColumnInfo
  primary_keys : List String

/-- Model of Python sep.join(parts). -/
def pyJoin (sep : String) : List String → String
  | [] => ""
  | [x] => x
  | x :: xs => x ++ sep ++ pyJoin sep xs

/-- The body of the column loop of `generate_create_table_sql`
(src/db/inspector.py lines 264-277): the mapped type, the NOT NULL marker
for non-nullable columns, the DEFAULT clause unless the default is empty or
the literal string null (case-insensitive), assembled into the fixed format
string and stripped. -/
def columnDefLine (source_db_type target_db_type : String) (col : ColumnInfo) : String :=
  let col_type := map_data_type col.type source_db_type target_db_type
  let nullable := if col.nullable then "" else "NOT NULL"
  let dflt :=
    if col.default ≠ "" ∧ pyLower col.default ≠ "null" ∧ col.default ≠ "" then
      "DEFAULT " ++ col.default
    else ""
  pyStrip ("    " ++ col.name ++ " " ++ col_type ++ " " ++ nullable ++ " " ++ dflt)

/-- Embedding of `generate_create_table_sql` (src/db/inspector.py lines
247-292): header with IF NOT EXISTS except for Oracle targets, the column
definitions in schema order joined by comma-newline, a PRIMARY KEY clause
when primary keys exist, and the InnoDB suffix for MySQL targets.  The
explicit target table name is used unless it is missing or empty (Python
or-semantics). -/
def generate_create_table_sql (table_schema : TableSchema)
    (source_db_type target_db_type : String)
    (target_table_name : Option String) : String :=
  let table_name :=
    match target_table_name with
    | some s => if s = "" then table_schema.table else s
    | none => table_schema.table
  let sql :=
    if target_db_type = "oracle" then "CREATE TABLE " ++ table_name ++ " (\n"
    else "CREATE TABLE IF NOT EXISTS " ++ table_name ++ " (\n"
  let column_defs :=
    table_schema.columns.map (columnDefLine source_db_type target_db_type)
  let column_defs :=
    if table_schema.primary_keys ≠ [] then
      column_defs
        ++ ["    PRIMARY KEY (" ++ pyJoin ", " table_schema.primary_keys ++ ")"]
    else column_defs
  let sql := sql ++ pyJoin ",\n" column_defs ++ "\n)"
  if target_db_type = "mysql" then sql ++ " ENGINE=InnoDB DEFAULT CHARSET=utf8mb4"
  else sql

/-! Spec-side rendering, written from the words of spec section 4.2: columns
in declared order, each as name, mapped type, NOT NULL when not nullable,
DEFAULT unless the source default is empty or the literal null
(case-insensitive); one PRIMARY KEY clause naming the primary keys in order
when there are any; IF NOT EXISTS omitted for Oracle; the InnoDB suffix
appended only for MySQL.  The concrete spacing (including the double space
left by an absent NOT NULL marker before DEFAULT) states the format
explicitly rather than through stripping. -/

/-- Spec rendering of one column definition. -/
def specColumnDef (source_db_type target_db_type : String) (col : ColumnInfo) : String :=
  let t := map_data_type col.type source_db_type target_db_type
  if col.nullable then
    if col.default = "" ∨ pyLower col.default = "null" then
      col.name ++ " " ++ t
    else
      col.name ++ " " ++ t ++ "  DEFAULT " ++ col.default
  else
    if col.default = "" ∨ pyLower col.default = "null" then
      col.name ++ " " ++ t ++ " NOT NULL"
    else
      col.name ++ " " ++ t ++ " NOT NULL DEFAULT " ++ col.default

/-- Spec rendering of the primary-key clause: absent when there are no
primary keys, otherwise a single clause naming them in order. -/
def specPkClause (primary_keys : List String) : List String :=
  if primary_keys = [] then []
  else ["    PRIMARY KEY (" ++ pyJoin ", " primary_keys ++ ")"]

/-- Spec rendering of the statement header: IF NOT EXISTS omitted exactly
for Oracle targets. -/
def specHeader (target_db_type table_name : String) : String :=
  if target_db_type = "oracle" then "CREATE TABLE " ++ table_name ++ " (\n"
  else "CREATE TABLE IF NOT EXISTS " ++ table_name ++ " (\n"

/-- Spec rendering of the engine suffix: appended exactly for MySQL
targets. -/
def specEngineSuffix (target_db_type : String) : String :=
  if target_db_type = "mysql" then " ENGINE=InnoDB DEFAULT CHARSET=utf8mb4" else ""

/-- The rendered target table name: the supplied name unless missing or
empty. -/
def specTableName (table_schema : TableSchema) (target_table_name : Option String) :
    String :=
  match target_table_name with
  | some s => if s = "" then table_schema.table else s
  | none => table_schema.table

/-- Spec rendering of the whole CREATE TABLE statement. -/
def specCreateTable (table_schema : TableSchema)
    (source_db_type target_db_type : String)
    (target_table_name : Option String) : String :=
  specHeader target_db_type (specTableName table_schema target_table_name)
    ++ pyJoin ",\n"
        (table_schema.columns.map (specColumnDef source_db_type target_db_type)
          ++ specPkClause table_schema.primary_keys)
    ++ "\n)"
    ++ specEngineSuffix target_db_type

/-! Auxiliary facts about stripping.  A string is edge-clean when it is
non-empty and neither starts nor ends in whitespace; for such segments the
strip of the assembled format string resolves to the explicit spec form. -/

/-- The characters are non-empty, with non-whitespace first and last
character. -/
def cleanChars (l : List Char) : Prop :=
  l ≠ [] ∧ l.head?.all (fun c => !c.isWhitespace) = true
    ∧ l.getLast?.all (fun c => !c.isWhitespace) = true

/-- The string is non-empty and neither starts nor ends in whitespace. -/
def cleanEdges (s : String) : Prop := cleanChars s.data

instance (l : List Char) : Decidable (cleanChars l) := by
  unfold cleanChars; infer_instance

instance (s : String) : Decidable (cleanEdges s) := by
  unfold cleanEdges; infer_instance

/-- Removal of trailing whitespace only. -/
def stripRight (l : List Char) : List Char :=
  (l.reverse.dropWhile Char.isWhitespace).reverse

theorem stripList_eq_stripRight (l : List Char) :
    stripList l = stripRight (l.dropWhile Char.isWhitespace) := rfl

theorem dropWhile_ws_space (l : List Char) :
    (' ' :: l).dropWhile Char.isWhitespace = l.dropWhile Char.isWhitespace := by
  rw [List.dropWhile_cons, if_pos (by decide)]

theorem dropWhile_ws_head (c : Char) (t : List Char) (hc : c.isWhitespace = false) :
    (c :: t).dropWhile Char.isWhitespace = c :: t := by
  rw [List.dropWhile_cons, if_neg (by simp [hc])]

theorem stripRight_space (l : List Char) :
    stripRight (l ++ [' ']) = stripRight l := by
  unfold stripRight
  rw [List.reverse_append, show ([' '] : List Char).reverse = [' '] from rfl,
    List.singleton_append, List.dropWhile_cons, if_pos (by decide)]

theorem stripRight_clean (l : List Char) (hne : l ≠ [])
    (hl : l.getLast?.all (fun c => !c.isWhitespace) = true) : stripRight l = l := by
  obtain ⟨c, t, he⟩ : ∃ c t, l.reverse = c :: t := by
    cases hr : l.reverse with
    | nil => exact absurd (by simpa using congrArg List.reverse hr) hne
    | cons c t => exact ⟨c, t, rfl⟩
  have hc : c.isWhitespace = false := by
    have hh := List.head?_reverse l
    rw [he] at hh
    rw [← hh] at hl
    simpa using hl
  unfold stripRight
  rw [he, List.dropWhile_cons, if_neg (by simp [hc]), ← he, List.reverse_reverse]

theorem stripList_sp4 (c : Char) (t rest : List Char) (hc : c.isWhitespace = false) :
    stripList (' ' :: ' ' :: ' ' :: ' ' :: c :: (t ++ rest))
      = stripRight (c :: (t ++ rest)) := by
  rw [stripList_eq_stripRight, dropWhile_ws_space, dropWhile_ws_space,
    dropWhile_ws_space, dropWhile_ws_space, dropWhile_ws_head c _ hc]

end BridgeDB

namespace BridgeDB

theorem append_tail_ne_nil {X tail : List Char} (htne : tail ≠ []) :
    X ++ tail ≠ [] := by
  simp [List.append_eq_nil, htne]

theorem stripRight_clean_tail (X tail : List Char) (htne : tail ≠ [])
    (hl : tail.getLast?.all (fun x => !x.isWhitespace) = true) :
    stripRight (X ++ tail) = X ++ tail := by
  apply stripRight_clean _ (append_tail_ne_nil htne)
  rw [List.getLast?_append_of_ne_nil _ htne]
  exact hl

theorem data_pyStrip (s : String) : (pyStrip s).data = stripList s.data := rfl

theorem data_sp4 : ("    " : String).data = ' ' :: ' ' :: ' ' :: ' ' :: [] := rfl

theorem data_sp1 : (" " : String).data = [' '] := rfl

/-- The four concrete strip computations behind the column definition line,
split by nullability and default emission.  Case with nullable column and
omitted default: two trailing spaces are stripped. -/
theorem strip_col_nullable_nodefault (c : Char) (t ctd : List Char)
    (hc : c.isWhitespace = false) (hcne : ctd ≠ [])
    (hcl : ctd.getLast?.all (fun x => !x.isWhitespace) = true) :
    stripList (' ' :: ' ' :: ' ' :: ' ' :: c :: (t ++ ' ' :: (ctd ++ [' ', ' '])))
      = c :: (t ++ ' ' :: ctd) := by
  rw [stripList_sp4 c _ _ hc]
  rw [show c :: (t ++ ' ' :: (ctd ++ [' ', ' ']))
      = (((c :: t ++ [' ']) ++ ctd) ++ [' ']) ++ [' '] by simp]
  rw [stripRight_space, stripRight_space, stripRight_clean_tail _ _ hcne hcl]
  simp

/-- Case with non-nullable column and omitted default: one trailing space is
stripped, the line ends in the NOT NULL marker. -/
theorem strip_col_notnull_nodefault (c : Char) (t ctd : List Char)
    (hc : c.isWhitespace = false) :
    stripList (' ' :: ' ' :: ' ' :: ' ' ::
        c :: (t ++ ' ' :: (ctd ++ ' ' :: ("NOT NULL".data ++ [' ']))))
      = c :: (t ++ ' ' :: (ctd ++ ' ' :: "NOT NULL".data)) := by
  rw [stripList_sp4 c _ _ hc]
  rw [show c :: (t ++ ' ' :: (ctd ++ ' ' :: ("NOT NULL".data ++ [' '])))
      = (((c :: t ++ [' ']) ++ ctd ++ [' ']) ++ "NOT NULL".data) ++ [' '] by simp]
  rw [stripRight_space,
    stripRight_clean_tail _ "NOT NULL".data (by decide) (by decide)]
  simp

/-- Case with nullable column and emitted default: nothing is stripped, the
line ends in the default expression. -/
theorem strip_col_nullable_default (c : Char) (t ctd dd : List Char)
    (hc : c.isWhitespace = false) (hdne : dd ≠ [])
    (hdl : dd.getLast?.all (fun x => !x.isWhitespace) = true) :
    stripList (' ' :: ' ' :: ' ' :: ' ' ::
        c :: (t ++ ' ' :: (ctd ++ ' ' :: ' ' :: ("DEFAULT ".data ++ dd))))
      = c :: (t ++ ' ' :: (ctd ++ ' ' :: ' ' :: ("DEFAULT ".data ++ dd))) := by
  rw [stripList_sp4 c _ _ hc]
  rw [show c :: (t ++ ' ' :: (ctd ++ ' ' :: ' ' :: ("DEFAULT ".data ++ dd)))
      = ((c :: t ++ [' ']) ++ ctd ++ [' ', ' '] ++ "DEFAULT ".data) ++ dd by simp]
  rw [stripRight_clean_tail _ dd hdne hdl]

/-- Case with non-nullable column and emitted default. -/
theorem strip_col_notnull_default (c : Char) (t ctd dd : List Char)
    (hc : c.isWhitespace = false) (hdne : dd ≠ [])
    (hdl : dd.getLast?.all (fun x => !x.isWhitespace) = true) :
    stripList (' ' :: ' ' :: ' ' :: ' ' ::
        c :: (t ++ ' ' :: (ctd ++ ' ' :: ("NOT NULL".data
          ++ ' ' :: ("DEFAULT ".data ++ dd)))))
      = c :: (t ++ ' ' :: (ctd ++ ' ' :: ("NOT NULL".data
          ++ ' ' :: ("DEFAULT ".data ++ dd)))) := by
  rw [stripList_sp4 c _ _ hc]
  rw [show c :: (t ++ ' ' :: (ctd ++ ' ' :: ("NOT NULL".data
        ++ ' ' :: ("DEFAULT ".data ++ dd))))
      = ((c :: t ++ [' ']) ++ ctd ++ [' '] ++ "NOT NULL".data ++ [' ']
          ++ "DEFAULT ".data) ++ dd by simp]
  rw [stripRight_clean_tail _ dd hdne hdl]

end BridgeDB

namespace BridgeDB

theorem data_empty : ("" : String).data = [] := rfl

theorem data_sp_notnull : (" NOT NULL" : String).data = ' ' :: "NOT NULL".data := rfl

theorem data_sp2_default : ("  DEFAULT " : String).data
    = ' ' :: ' ' :: "DEFAULT ".data := rfl

theorem data_sp_notnull_default : (" NOT NULL DEFAULT " : String).data
    = ' ' :: ("NOT NULL".data ++ ' ' :: "DEFAULT ".data) := rfl

/-- The column line the source emits equals its spec rendering, for columns
whose name, mapped type and (when present) default neither start nor end in
whitespace. -/
theorem columnDefLine_eq_spec (src tgt : String) (col : ColumnInfo)
    (hn : cleanEdges col.name)
    (ht : cleanEdges (map_data_type col.type src tgt))
    (hd : col.default = "" ∨ cleanEdges col.default) :
    columnDefLine src tgt col = specColumnDef src tgt col := by
  obtain ⟨hne, hh, hln⟩ := hn
  obtain ⟨c, t, hnm⟩ : ∃ c t, col.name.data = c :: t := by
    cases hx : col.name.data with
    | nil => exact absurd hx hne
    | cons c t => exact ⟨c, t, rfl⟩
  have hc : c.isWhitespace = false := by rw [hnm] at hh; simpa using hh
  obtain ⟨hctne, _, hctl⟩ := ht
  by_cases hdef : col.default = "" ∨ pyLower col.default = "null"
  · have hcode : ¬ (col.default ≠ "" ∧ pyLower col.default ≠ "null"
        ∧ col.default ≠ "") := by tauto
    by_cases hnul : col.nullable
    · apply String.ext
      simp only [columnDefLine, specColumnDef, hnul, if_true, if_pos hdef,
        if_neg hcode, data_pyStrip, String.data_append, data_sp4, data_sp1,
        data_empty, hnm, List.cons_append, List.nil_append, List.append_nil,
        List.append_assoc]
      exact strip_col_nullable_nodefault c t _ hc hctne hctl
    · simp only [Bool.not_eq_true] at hnul
      apply String.ext
      simp only [columnDefLine, specColumnDef, hnul, Bool.false_eq_true,
        if_false, if_pos hdef, if_neg hcode, data_pyStrip, String.data_append,
        data_sp4, data_sp1, data_sp_notnull, data_empty, hnm, List.cons_append,
        List.nil_append, List.append_nil, List.append_assoc]
      exact strip_col_notnull_nodefault c t _ hc
  · push_neg at hdef
    obtain ⟨hd1, hd2⟩ := hdef
    have hdc : cleanEdges col.default := by
      cases hd with
      | inl h => exact absurd h hd1
      | inr h => exact h
    obtain ⟨hdne, _, hdl⟩ := hdc
    have hcode : col.default ≠ "" ∧ pyLower col.default ≠ "null"
        ∧ col.default ≠ "" := ⟨hd1, hd2, hd1⟩
    have hdef2 : ¬ (col.default = "" ∨ pyLower col.default = "null") := by tauto
    by_cases hnul : col.nullable
    · apply String.ext
      simp only [columnDefLine, specColumnDef, hnul, if_true, if_neg hdef2,
        if_pos hcode, data_pyStrip, String.data_append, data_sp4, data_sp1,
        data_sp2_default, data_empty, hnm, List.cons_append, List.nil_append,
        List.append_nil, List.append_assoc]
      exact strip_col_nullable_default c t _ _ hc hdne hdl
    · simp only [Bool.not_eq_true] at hnul
      apply String.ext
      simp only [columnDefLine, specColumnDef, hnul, Bool.false_eq_true,
        if_false, if_neg hdef2, if_pos hcode, data_pyStrip, String.data_append,
        data_sp4, data_sp1, data_sp_notnull_default, data_empty, hnm,
        List.cons_append, List.nil_append, List.append_nil, List.append_assoc]
      exact strip_col_notnull_default c t _ _ hc hdne hdl

end BridgeDB

/-! Claim C6: the CREATE TABLE renderer against the spec rules. -/

namespace BridgeDB

/-- C6: for every schema whose column names, mapped types and non-empty
defaults neither start nor end in whitespace, the SQL emitted by
`generate_create_table_sql` equals its spec rendering: the columns appear
in the schema's declared order; when primary keys exist a single PRIMARY
KEY clause names exactly them in order; IF NOT EXISTS is omitted exactly
for Oracle targets; the InnoDB suffix is appended exactly for MySQL
targets; and the DEFAULT clause is omitted exactly when the source default
is empty or the literal null, case-insensitively. -/
theorem c6_create_table_matches_spec (schema : TableSchema) (src tgt : String)
    (tname : Option String)
    (h : ∀ col ∈ schema.columns, cleanEdges col.name
          ∧ cleanEdges (map_data_type col.type src tgt)
          ∧ (col.default = "" ∨ cleanEdges col.default)) :
    generate_create_table_sql schema src tgt tname
      = specCreateTable schema src tgt tname := by
  have hmap : schema.columns.map (columnDefLine src tgt)
      = schema.columns.map (specColumnDef src tgt) :=
    List.map_congr_left (fun col hcol =>
      columnDefLine_eq_spec src tgt col (h col hcol).1 (h col hcol).2.1
        (h col hcol).2.2)
  simp only [generate_create_table_sql, specCreateTable, specHeader,
    specTableName, specPkClause, specEngineSuffix, hmap]
  by_cases hp : schema.primary_keys = [] <;>
    by_cases hm : tgt = "mysql" <;>
      simp [hp, hm]

/-- Witness for C6: the refinement theorem applied to a concrete
MySQL-to-PostgreSQL schema with a primary key, a non-nullable column, a
null-string default and an emitted default. -/
theorem c6_create_table_matches_spec_witness :
    (∀ col ∈ [ColumnInfo.mk "id" "int" false "",
               ColumnInfo.mk "name" "varchar(50)" true "null",
               ColumnInfo.mk "n" "int" true "7"],
        cleanEdges col.name
          ∧ cleanEdges (map_data_type col.type "mysql" "postgresql")
          ∧ (col.default = "" ∨ cleanEdges col.default))
    ∧ generate_create_table_sql
        (TableSchema.mk "people"
          [ColumnInfo.mk "id" "int" false "",
           ColumnInfo.mk "name" "varchar(50)" true "null",
           ColumnInfo.mk "n" "int" true "7"] ["id"])
        "mysql" "postgresql" none
      = specCreateTable
          (TableSchema.mk "people"
            [ColumnInfo.mk "id" "int" false "",
             ColumnInfo.mk "name" "varchar(50)" true "null",
             ColumnInfo.mk "n" "int" true "7"] ["id"])
          "mysql" "postgresql" none :=
  ⟨by decide,
    c6_create_table_matches_spec
      (TableSchema.mk "people"
        [ColumnInfo.mk "id" "int" false "",
         ColumnInfo.mk "name" "varchar(50)" true "null",
         ColumnInfo.mk "n" "int" true "7"] ["id"])
      "mysql" "postgresql" none (by decide)⟩

end BridgeDB
